import Mathlib

/-!
Shallow embedding of the spacetrader-agent decision engine.

Sources embedded here:
- `src/models/contract.py` (deliveries, terms, contract, derived status,
  profitability score)
- `src/models/ship.py` and `src/models/agent_data.py` (cargo capacity, fuel,
  credits, shared-context queries)
- `src/states/assess_situation.py` (contract adoption and next-action choice)
- `src/states/negotiate_contract.py` (capability filter, cost estimate,
  filtering-reason analysis)
- `src/states/acquire_resources.py` (resource-needs analysis, shipyard
  handling, cargo-ship selection, purchase-response handling)

Modelling conventions: Python `int` is `ℤ`; Python `float` arithmetic is
modelled over `ℚ`; timestamps (`datetime`, `time.time()`) are `ℚ` values so
that `now > deadline` comparisons and second differences are exact;
`int(payment * 0.1)` (truncation toward zero) is `Int.tdiv payment 10`;
dictionaries that may lack a key are `Option`; side effects on the shared
run context (fleet list, credits, strategy-config markers) are made explicit
by returning the updated values, and `time.sleep(n)` is recorded as a wait
duration in the result.
-/

namespace SpaceTrader

/-- Embeds `models/state_enums.py` / `agent.py`: the agent state machine's states. -/
inductive AgentState where
  | INITIALIZE
  | ASSESS_SITUATION
  | NEGOTIATE_CONTRACT
  | ACCEPT_CONTRACT
  | PLAN_FULFILLMENT
  | ACQUIRE_RESOURCES
  | EXECUTE_CONTRACT
  | DELIVER_GOODS
  | COMPLETE_CONTRACT
  | EVALUATE_PERFORMANCE
  | ERROR_RECOVERY
  deriving DecidableEq, Repr

/-- Embeds `models/contract.py` `ContractStatus`. -/
inductive ContractStatus where
  | AVAILABLE
  | ACCEPTED
  | FULFILLED
  | FAILED
  deriving DecidableEq, Repr

/-- Embeds `models/contract.py` `ContractDelivery`. -/
structure ContractDelivery where
  tradeSymbol : String
  destinationSymbol : String
  unitsRequired : ℤ
  unitsFulfilled : ℤ
  deriving DecidableEq, Repr

/-- Embeds `ContractDelivery.remaining_units`: `max(0, units_required - units_fulfilled)`. -/
def ContractDelivery.remainingUnits (d : ContractDelivery) : ℤ :=
  max 0 (d.unitsRequired - d.unitsFulfilled)

/-- Embeds `ContractDelivery.is_completed`: `units_fulfilled >= units_required`. -/
def ContractDelivery.isCompleted (d : ContractDelivery) : Bool :=
  d.unitsFulfilled ≥ d.unitsRequired

/-- Embeds `models/contract.py` `ContractTerms`; the `deadline` instant is a `ℚ`
timestamp (seconds). -/
structure ContractTerms where
  deadline : ℚ
  paymentOnAccepted : ℤ
  paymentOnFulfilled : ℤ
  deliveries : List ContractDelivery
  deriving DecidableEq, Repr

/-- Embeds `ContractTerms.total_payment`. -/
def ContractTerms.totalPayment (t : ContractTerms) : ℤ :=
  t.paymentOnAccepted + t.paymentOnFulfilled

/-- Embeds `models/contract.py` `Contract` (identity fields kept, status never stored). -/
structure Contract where
  contractId : String
  factionSymbol : String
  accepted : Bool
  fulfilled : Bool
  expiration : Option ℚ
  terms : ContractTerms
  deriving DecidableEq, Repr

/-- Embeds `Contract.is_expired`: uses the `expiration` field when present, else the
terms deadline; `datetime.now()` is the explicit `now` argument. -/
def Contract.isExpired (c : Contract) (now : ℚ) : Bool :=
  match c.expiration with
  | some e => decide (now > e)
  | none => decide (now > c.terms.deadline)

/-- Embeds `Contract.status`: derived, computed on demand from the flags and deadline. -/
def Contract.status (c : Contract) (now : ℚ) : ContractStatus :=
  if c.fulfilled then ContractStatus.FULFILLED
  else if c.accepted then ContractStatus.ACCEPTED
  else if c.isExpired now then ContractStatus.FAILED
  else ContractStatus.AVAILABLE

/-- Embeds `Contract.all_deliveries_completed`. -/
def Contract.allDeliveriesCompleted (c : Contract) : Bool :=
  c.terms.deliveries.all (fun d => d.isCompleted)

/-- Sum of `remaining_units` over the deliveries (the scoring function's
`total_units_needed`). -/
def Contract.totalUnitsNeeded (c : Contract) : ℤ :=
  (c.terms.deliveries.map (fun d => d.remainingUnits)).sum

/-- Sum of `units_required` over the deliveries (used by the negotiation
filter and cost estimate). -/
def Contract.totalUnitsRequired (c : Contract) : ℤ :=
  (c.terms.deliveries.map (fun d => d.unitsRequired)).sum

/-- Embeds `max((delivery.units_required ...), default=0)` — Python `max` with a
default over the deliveries list. -/
def Contract.maxDeliverySize (c : Contract) : ℤ :=
  match c.terms.deliveries.map (fun d => d.unitsRequired) with
  | [] => 0
  | x :: xs => xs.foldl max x

/-- Embeds `Contract.calculate_profitability_score` from `models/contract.py`
(lines 127-160), with float arithmetic over `ℚ` and `datetime.now()` passed
as `now`. -/
def Contract.profitabilityScore (c : Contract) (now : ℚ)
    (cargoCapacity : ℤ) (estimatedCosts : ℤ) : ℚ :=
  if c.isExpired now then -1000
  else if c.totalUnitsNeeded > cargoCapacity then -500
  else
    let profit : ℤ := c.terms.totalPayment - estimatedCosts
    if profit ≤ 0 then -100
    else
      let profitPerUnit : ℚ := (profit : ℚ) / ((max 1 c.totalUnitsNeeded : ℤ) : ℚ)
      let profitMargin : ℚ := (profit : ℚ) / ((max 1 c.terms.totalPayment : ℤ) : ℚ)
      let timeRemaining : ℚ := c.terms.deadline - now
      let timeFactor : ℚ := min 1 (timeRemaining / 86400)
      profitPerUnit * profitMargin * timeFactor * 100

/-- Embeds `models/ship.py` `ShipNavStatus`. -/
inductive ShipNavStatus where
  | IN_TRANSIT
  | IN_ORBIT
  | DOCKED
  deriving DecidableEq, Repr

/-- Embeds `models/ship.py` `Ship`, restricted to the fields the decision code
reads: cargo capacity/units, fuel, and navigation location/status. -/
structure Ship where
  symbol : String
  navWaypointSymbol : String
  navStatus : ShipNavStatus
  cargoCapacity : ℤ
  cargoUnits : ℤ
  fuelCurrent : ℤ
  fuelCapacity : ℤ
  deriving DecidableEq, Repr

/-- Embeds `ShipFuel.percentage`: `0.0` when capacity is `0`, else
`current / capacity * 100`. -/
def Ship.fuelPercentage (s : Ship) : ℚ :=
  if s.fuelCapacity = 0 then 0
  else (s.fuelCurrent : ℚ) / (s.fuelCapacity : ℚ) * 100

/-- Embeds `ShipFuel.needs_refuel`: fuel percentage below 25%. -/
def Ship.needsRefuel (s : Ship) : Bool :=
  decide (s.fuelPercentage < 25)

/-- Embeds `Ship.nav.is_in_transit`. -/
def Ship.isInTransit (s : Ship) : Bool :=
  s.navStatus = ShipNavStatus.IN_TRANSIT

/-- Embeds `models/agent_data.py` `AgentData`, restricted to the fields read by the
decision code. -/
structure AgentData where
  symbol : String
  headquarters : String
  credits : ℤ
  deriving DecidableEq, Repr

/-- The strategy-config entries the decision code reads
(`safety_credit_reserve`, and the ad hoc `last_acquire_attempt` /
`acquire_failed` failure markers; missing keys default to `0` / `False`,
which the caller supplies here directly). -/
structure StrategyConfig where
  safetyCreditReserve : ℤ
  lastAcquireAttempt : ℚ
  acquireFailed : Bool
  deriving DecidableEq, Repr

/-- Embeds `AgentContext.get_total_cargo_capacity`. -/
def totalCargoCapacity (ships : List Ship) : ℤ :=
  (ships.map (fun s => s.cargoCapacity)).sum

/-- Embeds `max((ship.cargo_capacity for ship in ships), default=0)`. -/
def largestShipCapacity (ships : List Ship) : ℤ :=
  match ships.map (fun s => s.cargoCapacity) with
  | [] => 0
  | x :: xs => xs.foldl max x

/-- Embeds `AgentContext.has_sufficient_credits`: `False` when no agent data,
else `credits - safety_credit_reserve >= amount`. -/
def hasSufficientCredits (agentData : Option AgentData) (config : StrategyConfig)
    (amount : ℤ) : Bool :=
  match agentData with
  | none => false
  | some a => decide (a.credits - config.safetyCreditReserve ≥ amount)

/-- Embeds `negotiate_contract.py` `_estimate_contract_cost` (lines 248-274):
`total_units * 100 + int(total_payment * 0.1)`; the float product with `0.1`
truncated by `int()` is modelled as truncated division by 10. -/
def estimateContractCost (c : Contract) : ℤ :=
  let totalUnits := c.totalUnitsRequired
  let estimatedGoodsCost := totalUnits * 100
  let estimatedFuelCost := Int.tdiv c.terms.totalPayment 10
  estimatedGoodsCost + estimatedFuelCost

/-- The per-contract body of `_filter_contracts_by_capabilities`
(lines 139-180): `True` when the contract is appended to
`suitable_contracts`. The three `continue` guards are kept in source order;
the third one (largest delivery exceeds largest ship AND total exceeds total
capacity) can never fire after the first guard passed. -/
def contractPassesFilter (ships : List Ship) (agentData : Option AgentData)
    (config : StrategyConfig) (c : Contract) : Bool :=
  let totalCap := totalCargoCapacity ships
  if c.totalUnitsRequired > totalCap then false
  else if ¬ hasSufficientCredits agentData config (estimateContractCost c) then false
  else if c.maxDeliverySize > largestShipCapacity ships ∧ c.totalUnitsRequired > totalCap
    then false
  else true

/-- Embeds `negotiate_contract.py` `_filter_contracts_by_capabilities`
(lines 120-183): empty result when the fleet is empty, else the contracts
surviving the per-contract guards, in order. -/
def filterContractsByCapabilities (ships : List Ship) (agentData : Option AgentData)
    (config : StrategyConfig) (contracts : List Contract) : List Contract :=
  if ships.isEmpty then []
  else contracts.filter (contractPassesFilter ships agentData config)

/-- Embeds `negotiate_contract.py` `_analyze_filtering_reasons` (lines 185-246):
counts the rejection causes over the fetched contracts and returns
ACQUIRE_RESOURCES only when a capacity or ship-size issue exists, agent data
is present with more than 50000 credits, and the acquire-failure cooldown
(1 hour since `last_acquire_attempt`) has passed or no failure is recorded;
`time.time()` is the explicit `now` argument. -/
def analyzeFilteringReasons (ships : List Ship) (agentData : Option AgentData)
    (config : StrategyConfig) (now : ℚ) (contracts : List Contract) : AgentState :=
  if contracts.isEmpty then AgentState.NEGOTIATE_CONTRACT
  else
    let totalCap := totalCargoCapacity ships
    let capacityIssues := contracts.countP (fun c => decide (c.totalUnitsRequired > totalCap))
    let shipSizeIssues := contracts.countP (fun c =>
      decide (c.maxDeliverySize > largestShipCapacity ships ∧ c.totalUnitsRequired > totalCap))
    let creditsOk : Bool :=
      match agentData with
      | none => false
      | some a => decide (a.credits > 50000)
    let cooldownOk : Bool := !config.acquireFailed || decide (now - config.lastAcquireAttempt > 3600)
    if (capacityIssues > 0 ∨ shipSizeIssues > 0) ∧ creditsOk ∧ cooldownOk
      then AgentState.ACQUIRE_RESOURCES
      else AgentState.NEGOTIATE_CONTRACT

/-- The active-contract predicate of `assess_situation.py` `_update_contracts`:
`accepted and not fulfilled and not is_expired`. -/
def isActiveContract (now : ℚ) (c : Contract) : Bool :=
  c.accepted && !c.fulfilled && !c.isExpired now

/-- Embeds `assess_situation.py` `_update_contracts` (lines 102-144): adopt the
first contract that is accepted, not fulfilled, and not expired (the head of
the filtered list), else clear `current_contract`. -/
def updateContracts (now : ℚ) (contracts : List Contract) : Option Contract :=
  let activeContracts := contracts.filter (isActiveContract now)
  match activeContracts with
  | [] => none
  | c :: _ => some c

/-- Embeds `assess_situation.py` `_determine_next_action` (lines 162-190). -/
def determineNextAction (ships : List Ship) (currentContract : Option Contract) :
    AgentState :=
  if ships.isEmpty then AgentState.ERROR_RECOVERY
  else
    match currentContract with
    | some c =>
      if c.allDeliveriesCompleted then AgentState.COMPLETE_CONTRACT
      else AgentState.EXECUTE_CONTRACT
    | none => AgentState.NEGOTIATE_CONTRACT

/-- The assessment step of `assess_situation.py` `execute`: refresh the
current contract from the fetched contracts, then classify. Returns the
adopted contract together with the next state. -/
def assessSituation (ships : List Ship) (contracts : List Contract) (now : ℚ) :
    Option Contract × AgentState :=
  let currentContract := updateContracts now contracts
  (currentContract, determineNextAction ships currentContract)

/-- A vendor offering in a shipyard's live inventory: the fields
`acquire_resources.py` reads from each `ship_info` dict (`type`,
`purchasePrice`, `cargo.capacity`). -/
structure ShipOffering where
  shipType : String
  purchasePrice : ℤ
  cargoCapacity : ℤ
  deriving DecidableEq, Repr

/-- A discovered shipyard: waypoint plus the `shipyard_data['ships']`
inventory list. -/
structure Shipyard where
  waypointSymbol : String
  ships : List ShipOffering
  deriving DecidableEq, Repr

/-- Embeds `acquire_resources.py` `_analyze_resource_needs` result dict
(lines 125-133), minus the log-only fields. -/
structure ResourceNeeds where
  needResources : Bool
  needCargoCapacity : Bool
  needFuel : Bool
  minCargoNeeded : ℤ
  currentCapacity : ℤ
  targetCapacity : ℤ
  deriving DecidableEq, Repr

/-- Embeds `acquire_resources.py` `_analyze_resource_needs` (lines 109-146):
target capacity `max(60, current + 20)`, cargo need when current below
target, fuel need when any ship is below the refuel threshold. -/
def analyzeResourceNeeds (ships : List Ship) : ResourceNeeds :=
  let currentCapacity := totalCargoCapacity ships
  let shipsNeedingFuel := ships.filter (fun s => s.needsRefuel)
  let targetCapacity := max 60 (currentCapacity + 20)
  let needs : ResourceNeeds :=
    { needResources := false
      needCargoCapacity := false
      needFuel := !shipsNeedingFuel.isEmpty
      minCargoNeeded := 0
      currentCapacity := currentCapacity
      targetCapacity := targetCapacity }
  let needs :=
    if currentCapacity < targetCapacity then
      { needs with
          needResources := true
          needCargoCapacity := true
          minCargoNeeded := targetCapacity - currentCapacity }
    else needs
  if !shipsNeedingFuel.isEmpty then { needs with needResources := true } else needs

/-- Embeds `value = cargo_capacity / max(price, 1)` from `_purchase_cargo_ship`
(line 296). -/
def offeringValue (o : ShipOffering) : ℚ :=
  (o.cargoCapacity : ℚ) / ((max o.purchasePrice 1 : ℤ) : ℚ)

/-- The three `continue` guards of `_purchase_cargo_ship` (lines 276-293):
an offering is considered only if it is within budget, has positive cargo
capacity, and meets the minimum additional capacity needed. -/
def offeringQualifies (purchasableCredits minCargoNeeded : ℤ) (o : ShipOffering) : Bool :=
  !(decide (o.purchasePrice > purchasableCredits)) &&
  !(decide (o.cargoCapacity ≤ 0)) &&
  !(decide (o.cargoCapacity < minCargoNeeded))

/-- One iteration of the `_purchase_cargo_ship` inner loop: skip a
non-qualifying offering, else replace the best candidate exactly when its
value strictly exceeds the best value so far. -/
def selectStep (purchasableCredits minCargoNeeded : ℤ)
    (acc : Option (Shipyard × ShipOffering) × ℚ) (entry : Shipyard × ShipOffering) :
    Option (Shipyard × ShipOffering) × ℚ :=
  if offeringQualifies purchasableCredits minCargoNeeded entry.2 then
    if offeringValue entry.2 > acc.2 then (some entry, offeringValue entry.2) else acc
  else acc

/-- The vendor offerings of a shipyard list in iteration order (outer loop
over shipyards, inner loop over each inventory), each paired with its
shipyard. -/
def shipyardOfferings (shipyards : List Shipyard) : List (Shipyard × ShipOffering) :=
  shipyards.flatMap (fun sy => sy.ships.map (fun o => (sy, o)))

/-- The selection part of `acquire_resources.py` `_purchase_cargo_ship`
(lines 264-307): fold the loop body over all offerings starting from
`best_ship = None, best_value = 0`. -/
def purchaseCargoShipSelect (shipyards : List Shipyard)
    (purchasableCredits minCargoNeeded : ℤ) : Option (Shipyard × ShipOffering) :=
  ((shipyardOfferings shipyards).foldl
    (selectStep purchasableCredits minCargoNeeded) (none, 0)).1

/-- The `response['data']` payload of the purchase-ship call as read by
`_execute_ship_purchase` (lines 349-352): optional `ship`, optional `agent`
member (the `transaction` member is only logged). A `{}` value for a member
is Python-falsy and is modelled as `none`. -/
structure PurchaseResponseData where
  ship : Option Ship
  agent : Option AgentData
  deriving DecidableEq, Repr

/-- Embeds `acquire_resources.py` `_move_ship_to_waypoint` (lines 387-425): pick
the first ship that is not in transit and has positive fuel; succeed exactly
when such a ship exists and the navigate call returns a truthy response
(`navOk`). The local `context.ships` entries are not mutated. -/
def moveShipToWaypoint (ships : List Ship) (navOk : Bool) : Bool :=
  match ships.find? (fun s => !s.isInTransit && decide (s.fuelCurrent > 0)) with
  | none => false
  | some _ => navOk

/-- Embeds `acquire_resources.py` `_get_ship_at_waypoint` (lines 380-385). -/
def getShipAtWaypoint (ships : List Ship) (waypointSymbol : String) : Option Ship :=
  ships.find? (fun s => s.navWaypointSymbol = waypointSymbol)

/-- Embeds `acquire_resources.py` `_execute_ship_purchase` (lines 312-378), from
the point of view of the shared context: returns the reported success flag
together with the resulting fleet list and agent credits. `response` is
`none` for a falsy response or one without a `'data'` key; `navOk` stands
for the navigate call's response. On a response with data, the new ship is
appended only when a `ship` member is present, and the credits are replaced
only when an `agent` member is present — yet `True` is returned either way. -/
def executeShipPurchase (ships : List Ship) (credits : ℤ) (waypointSymbol : String)
    (response : Option PurchaseResponseData) (navOk : Bool) :
    Bool × List Ship × ℤ :=
  let shipAtShipyard := getShipAtWaypoint ships waypointSymbol
  let shipAtShipyard :=
    match shipAtShipyard with
    | some s => some s
    | none =>
      if moveShipToWaypoint ships navOk then getShipAtWaypoint ships waypointSymbol
      else none
  match shipAtShipyard with
  | none => (false, ships, credits)
  | some _ =>
    match response with
    | none => (false, ships, credits)
    | some d =>
      let ships' := match d.ship with
        | some s => ships ++ [s]
        | none => ships
      let credits' := match d.agent with
        | some a => a.credits
        | none => credits
      (true, ships', credits')

/-- The agent's credit balance as visible in the context (`0` when no agent
data has been loaded yet). -/
def creditsOf (agentData : Option AgentData) : ℤ :=
  match agentData with
  | none => 0
  | some a => a.credits

/-- The outcome of one run of the ACQUIRE_RESOURCES `execute` (the next
state, the `time.sleep` duration taken on the exit path, the strategy
config after any failure marking, the resulting fleet and credits, and
whether the early no-resources-needed exit was taken). -/
structure AcquireResult where
  next : AgentState
  waitSeconds : ℕ
  config : StrategyConfig
  ships : List Ship
  credits : ℤ
  noNeedExit : Bool
  deriving DecidableEq, Repr

/-- Embeds `acquire_resources.py` `execute` (lines 24-107). External inputs are
explicit: the discovered `shipyards` (result of `_find_shipyards`), the
purchase response and navigate success used by `_execute_ship_purchase`,
and the current time `now` used for the failure markers. The final
refuel/fleet-refresh steps only exchange data with the collaborator and are
not modelled; the fleet and credits they would overwrite are returned as
left by the purchase step. -/
def acquireResourcesExecute (ships : List Ship) (agentData : Option AgentData)
    (config : StrategyConfig) (shipyards : List Shipyard)
    (response : Option PurchaseResponseData) (navOk : Bool) (now : ℚ) : AcquireResult :=
  let resourceNeeds := analyzeResourceNeeds ships
  if !resourceNeeds.needResources then
    { next := AgentState.NEGOTIATE_CONTRACT, waitSeconds := 0, config := config
      ships := ships, credits := creditsOf agentData, noNeedExit := true }
  else if shipyards.isEmpty then
    { next := AgentState.NEGOTIATE_CONTRACT, waitSeconds := 60
      config := { config with lastAcquireAttempt := now, acquireFailed := true }
      ships := ships, credits := creditsOf agentData, noNeedExit := false }
  else
    let shipyardsWithShips := shipyards.filter (fun sy => decide (sy.ships.length > 0))
    if shipyardsWithShips.isEmpty then
      { next := AgentState.NEGOTIATE_CONTRACT, waitSeconds := 300
        config := { config with lastAcquireAttempt := now, acquireFailed := true }
        ships := ships, credits := creditsOf agentData, noNeedExit := false }
    else if resourceNeeds.needCargoCapacity then
      match agentData with
      | none =>
        -- `_purchase_cargo_ship` returns False when no agent data is available
        { next := AgentState.NEGOTIATE_CONTRACT, waitSeconds := 30, config := config
          ships := ships, credits := creditsOf agentData, noNeedExit := false }
      | some a =>
        let purchasableCredits := a.credits - config.safetyCreditReserve
        match purchaseCargoShipSelect shipyardsWithShips purchasableCredits
            resourceNeeds.minCargoNeeded with
        | none =>
          { next := AgentState.NEGOTIATE_CONTRACT, waitSeconds := 30, config := config
            ships := ships, credits := a.credits, noNeedExit := false }
        | some best =>
          let purchase := executeShipPurchase ships a.credits best.1.waypointSymbol
            response navOk
          if !purchase.1 then
            { next := AgentState.NEGOTIATE_CONTRACT, waitSeconds := 30, config := config
              ships := purchase.2.1, credits := purchase.2.2, noNeedExit := false }
          else
            { next := AgentState.NEGOTIATE_CONTRACT, waitSeconds := 0, config := config
              ships := purchase.2.1, credits := purchase.2.2, noNeedExit := false }
    else
      { next := AgentState.NEGOTIATE_CONTRACT, waitSeconds := 0, config := config
        ships := ships, credits := creditsOf agentData, noNeedExit := false }

/-- The profitability-score formula exactly as the specification words it,
as a function of the branch inputs (expired flag, total units needed, total
payment, cargo capacity, estimated cost, seconds to deadline); to be
compared with the score computed by the embedded code. -/
def profitabilityScoreSpec (expired : Bool) (totalUnitsNeeded totalPayment : ℤ)
    (cargoCapacity estimatedCost : ℤ) (secondsToDeadline : ℚ) : ℚ :=
  if expired then -1000
  else if totalUnitsNeeded > cargoCapacity then -500
  else if totalPayment - estimatedCost ≤ 0 then -100
  else
    let profit : ℚ := ((totalPayment - estimatedCost : ℤ) : ℚ)
    profit / max 1 (totalUnitsNeeded : ℚ) * (profit / max 1 (totalPayment : ℚ)) *
      min 1 (secondsToDeadline / 86400) * 100

/-- Modelled from the spec claim's words: capacity or ship-size rejection
causes "dominate" among the rejected contracts — read in the weakest
reasonable way, i.e. at least as many contracts are rejected for a capacity
or ship-size cause as for a credit cause. -/
def capacitySizeIssuesDominate (ships : List Ship) (agentData : Option AgentData)
    (config : StrategyConfig) (contracts : List Contract) : Prop :=
  contracts.countP
      (fun c => !hasSufficientCredits agentData config (estimateContractCost c)) ≤
  contracts.countP (fun c =>
      decide (c.totalUnitsRequired > totalCargoCapacity ships) ||
      decide (c.maxDeliverySize > largestShipCapacity ships ∧
        c.totalUnitsRequired > totalCargoCapacity ships))

/-- The Scenario-B contract of the spec: payments 1000 + 4000, a single
delivery of 50 units with none fulfilled, deadline two days (172800 s)
after the evaluation instant `0`. -/
def scenarioBContract : Contract :=
  { contractId := "scenario-b"
    factionSymbol := "COSMIC"
    accepted := false
    fulfilled := false
    expiration := none
    terms :=
      { deadline := 172800
        paymentOnAccepted := 1000
        paymentOnFulfilled := 4000
        deliveries :=
          [{ tradeSymbol := "IRON_ORE"
             destinationSymbol := "X1-TEST-DEST"
             unitsRequired := 50
             unitsFulfilled := 0 }] } }

/-- A contract whose `expiration` field lies in the future while its terms
deadline lies in the past: not expired, yet with a negative time factor. -/
def staleDeadlineContract : Contract :=
  { contractId := "stale-deadline"
    factionSymbol := "COSMIC"
    accepted := false
    fulfilled := false
    expiration := some 10
    terms :=
      { deadline := -86400
        paymentOnAccepted := 10
        paymentOnFulfilled := 0
        deliveries :=
          [{ tradeSymbol := "IRON_ORE"
             destinationSymbol := "X1-TEST-DEST"
             unitsRequired := 1
             unitsFulfilled := 0 }] } }

/-- Embeds `acquire_resources.py` `_purchase_cargo_ship` (lines 241-310) as a
whole: fail when no agent data, fail when no offering qualifies, else hand
the selected offering's shipyard to `_execute_ship_purchase`; returns the
reported success together with the resulting fleet and credits. -/
def purchaseCargoShip (ships : List Ship) (agentData : Option AgentData)
    (config : StrategyConfig) (shipyards : List Shipyard) (minCargoNeeded : ℤ)
    (response : Option PurchaseResponseData) (navOk : Bool) :
    Bool × List Ship × ℤ :=
  match agentData with
  | none => (false, ships, creditsOf agentData)
  | some a =>
    let purchasableCredits := a.credits - config.safetyCreditReserve
    match purchaseCargoShipSelect shipyards purchasableCredits minCargoNeeded with
    | none => (false, ships, a.credits)
    | some best =>
      executeShipPurchase ships a.credits best.1.waypointSymbol response navOk

/-- A one-ship fleet with 10 cargo capacity. -/
def smallFleet : List Ship :=
  [{ symbol := "S1", navWaypointSymbol := "W1", navStatus := ShipNavStatus.DOCKED
     cargoCapacity := 10, cargoUnits := 0, fuelCurrent := 100, fuelCapacity := 100 }]

/-- Agent with 100000 credits. -/
def richAgent : AgentData := { symbol := "AG", headquarters := "HQ", credits := 100000 }

/-- Default strategy config: 10000 reserve, no recorded acquire failure. -/
def freshConfig : StrategyConfig :=
  { safetyCreditReserve := 10000, lastAcquireAttempt := 0, acquireFailed := false }

/-- A contract rejected only for capacity (20 units against 10 capacity,
cheap). -/
def capacityRejectedContract : Contract :=
  { contractId := "cap", factionSymbol := "COSMIC"
    accepted := false, fulfilled := false, expiration := none
    terms := { deadline := 86400, paymentOnAccepted := 0, paymentOnFulfilled := 0
               deliveries := [{ tradeSymbol := "A", destinationSymbol := "D"
                                unitsRequired := 20, unitsFulfilled := 0 }] } }

/-- A contract rejected only for credits (5 units fit the fleet, but the
estimated cost 500 + 100000 exceeds the 90000 available credits). -/
def creditRejectedContract : Contract :=
  { contractId := "cred", factionSymbol := "COSMIC"
    accepted := false, fulfilled := false, expiration := none
    terms := { deadline := 86400, paymentOnAccepted := 1000000, paymentOnFulfilled := 0
               deliveries := [{ tradeSymbol := "A", destinationSymbol := "D"
                                unitsRequired := 5, unitsFulfilled := 0 }] } }

/-- One capacity-rejected contract among nine credit-rejected ones: credit
issues dominate. -/
def mostlyCreditContracts : List Contract :=
  capacityRejectedContract :: List.replicate 9 creditRejectedContract

/-- A docked, fueled ship sitting at waypoint `X1-WP1`. -/
def dockedShipAtWp1 : Ship :=
  { symbol := "SHIP-1", navWaypointSymbol := "X1-WP1", navStatus := ShipNavStatus.DOCKED
    cargoCapacity := 40, cargoUnits := 0, fuelCurrent := 100, fuelCapacity := 100 }

/-- Helper: `analyzeResourceNeeds` always reports a cargo-capacity need,
because the current capacity is strictly below `max(60, current + 20)`. -/
theorem analyzeResourceNeeds_always_needs (ships : List Ship) :
    (analyzeResourceNeeds ships).needResources = true ∧
    (analyzeResourceNeeds ships).needCargoCapacity = true ∧
    totalCargoCapacity ships < (analyzeResourceNeeds ships).targetCapacity := by
  have hlt : totalCargoCapacity ships < max 60 (totalCargoCapacity ships + 20) :=
    lt_max_of_lt_right (by linarith)
  unfold analyzeResourceNeeds
  simp only [hlt, if_true]
  by_cases hf : (ships.filter (fun s => s.needsRefuel)).isEmpty <;>
    simp [hf, hlt]

/-- C9: for every contract record the derived status is `FULFILLED` when the
fulfilled flag is set, else `ACCEPTED` when the accepted flag is set, else
`FAILED` when past the deadline, else `AVAILABLE`; the status is a derived
function of these fields (the `Contract` record stores no status field). -/
theorem contract_status_derivation (c : Contract) (now : ℚ) :
    (c.fulfilled = true → c.status now = ContractStatus.FULFILLED) ∧
    (c.fulfilled = false → c.accepted = true → c.status now = ContractStatus.ACCEPTED) ∧
    (c.fulfilled = false → c.accepted = false → c.isExpired now = true →
      c.status now = ContractStatus.FAILED) ∧
    (c.fulfilled = false → c.accepted = false → c.isExpired now = false →
      c.status now = ContractStatus.AVAILABLE) := by
  refine ⟨?_, ?_, ?_, ?_⟩ <;> intros <;> simp_all [Contract.status]

theorem contract_status_derivation_value :
    Contract.status
      { contractId := "w", factionSymbol := "w", accepted := true, fulfilled := true
        expiration := none
        terms := { deadline := 0, paymentOnAccepted := 0, paymentOnFulfilled := 0
                   deliveries := [] } } 0 = ContractStatus.FULFILLED :=
  (contract_status_derivation _ 0).1 rfl

/-- C10: for every fleet the resource-needs analysis reports both
`need_resources` and `need_cargo_capacity`, since the current capacity is
always strictly below the target `max(60, current + 20)`; hence the
acquire-resources early "no additional resources needed" exit is never
taken. -/
theorem resource_needs_always_reported (ships : List Ship)
    (agentData : Option AgentData) (config : StrategyConfig)
    (shipyards : List Shipyard) (response : Option PurchaseResponseData)
    (navOk : Bool) (now : ℚ) :
    (analyzeResourceNeeds ships).needResources = true ∧
    (analyzeResourceNeeds ships).needCargoCapacity = true ∧
    totalCargoCapacity ships < (analyzeResourceNeeds ships).targetCapacity ∧
    (acquireResourcesExecute ships agentData config shipyards response navOk
      now).noNeedExit = false := by
  obtain ⟨h1, h2, h3⟩ := analyzeResourceNeeds_always_needs ships
  refine ⟨h1, h2, h3, ?_⟩
  unfold acquireResourcesExecute
  simp only [h1, h2, Bool.not_true, Bool.false_eq_true, if_false, if_true]
  by_cases hse : shipyards.isEmpty
  · simp [hse]
  · simp only [hse, Bool.false_eq_true, if_false]
    by_cases hws : (List.filter (fun sy => decide (sy.ships.length > 0)) shipyards).isEmpty
    · simp [hws]
    · simp only [hws, Bool.false_eq_true, if_false]
      cases agentData with
      | none => rfl
      | some a =>
        cases hsel : purchaseCargoShipSelect
            (List.filter (fun sy => decide (sy.ships.length > 0)) shipyards)
            (a.credits - config.safetyCreditReserve)
            (analyzeResourceNeeds ships).minCargoNeeded with
        | none => simp [hsel]
        | some best =>
          simp only [hsel]
          by_cases hp : (executeShipPurchase ships a.credits best.1.waypointSymbol
              response navOk).1 <;> simp [hp]

/-- C2: the profitability score computed by the code agrees everywhere with
the formula as the spec words it — `-1000` if expired, else `-500` if the
total units still needed exceed the cargo capacity, else `-100` if
`total_payment - estimated_cost ≤ 0`, else
`(profit/max(1,units)) * (profit/max(1,payment)) * min(1, secs/86400) * 100`
— and the Scenario-B contract (payments 1000+4000, one 50-unit delivery,
capacity 100, estimated cost 2000, deadline 2 days out) scores exactly 3600. -/
theorem profitability_score_formula :
    (∀ (c : Contract) (now : ℚ) (cargoCapacity estimatedCosts : ℤ),
      c.profitabilityScore now cargoCapacity estimatedCosts =
        profitabilityScoreSpec (c.isExpired now) c.totalUnitsNeeded
          c.terms.totalPayment cargoCapacity estimatedCosts
          (c.terms.deadline - now)) ∧
    scenarioBContract.profitabilityScore 0 100 2000 = 3600 := by
  constructor
  · intro c now cargoCapacity estimatedCosts
    unfold Contract.profitabilityScore profitabilityScoreSpec
    by_cases h1 : c.isExpired now
    · simp [h1]
    · simp only [h1, Bool.false_eq_true, if_false]
      by_cases h2 : c.totalUnitsNeeded > cargoCapacity
      · simp [h2]
      · simp only [h2, if_false]
        by_cases h3 : c.terms.totalPayment - estimatedCosts ≤ 0
        · simp [h3]
        · simp only [h3, if_false]
          push_cast
          ring_nf
  · norm_num [Contract.profitabilityScore, Contract.isExpired,
      Contract.totalUnitsNeeded, ContractDelivery.remainingUnits,
      ContractTerms.totalPayment, scenarioBContract]

/-- C7 (counterexample to the monotonicity claim as stated): for a contract
whose `expiration` instant is still in the future while its terms deadline
has passed, the time factor is negative, and a larger profit (estimated cost
0, profit 10) yields a strictly SMALLER score than a smaller profit
(estimated cost 9, profit 1) with everything else held fixed. -/
theorem profitability_not_monotone_counterexample :
    staleDeadlineContract.profitabilityScore 0 10 0 <
      staleDeadlineContract.profitabilityScore 0 10 9 := by
  norm_num [Contract.profitabilityScore, Contract.isExpired,
    Contract.totalUnitsNeeded, ContractDelivery.remainingUnits,
    ContractTerms.totalPayment, staleDeadlineContract]

/-- C7 as amended: the profitability score is monotonically non-decreasing
in profit (holding contract, capacity, and time fixed) PROVIDED the terms
deadline has not passed (non-negative seconds to deadline); and it is
strictly negative for every expired contract and for every non-expired
contract whose units needed exceed the cargo capacity. -/
theorem profitability_score_monotone (c : Contract) (now : ℚ)
    (cargoCapacity e1 e2 : ℤ) :
    (now ≤ c.terms.deadline → e2 ≤ e1 →
      c.profitabilityScore now cargoCapacity e1 ≤
        c.profitabilityScore now cargoCapacity e2) ∧
    (c.isExpired now = true → c.profitabilityScore now cargoCapacity e1 < 0) ∧
    (c.isExpired now = false → c.totalUnitsNeeded > cargoCapacity →
      c.profitabilityScore now cargoCapacity e1 < 0) := by
  refine ⟨?_, ?_, ?_⟩
  · intro htime hcost
    unfold Contract.profitabilityScore
    by_cases h1 : c.isExpired now
    · simp [h1]
    · simp only [h1, Bool.false_eq_true, if_false]
      by_cases h2 : c.totalUnitsNeeded > cargoCapacity
      · simp [h2]
      · simp only [h2, if_false]
        have hU : (0 : ℚ) < ((max 1 c.totalUnitsNeeded : ℤ) : ℚ) := by
          exact_mod_cast lt_max_of_lt_left one_pos
        have hP : (0 : ℚ) < ((max 1 c.terms.totalPayment : ℤ) : ℚ) := by
          exact_mod_cast lt_max_of_lt_left one_pos
        have hT : (0 : ℚ) ≤ min 1 ((c.terms.deadline - now) / 86400) :=
          le_min (by norm_num) (div_nonneg (by linarith) (by norm_num))
        have hprofit : (c.terms.totalPayment - e1 : ℤ) ≤ c.terms.totalPayment - e2 := by
          omega
        by_cases h3 : c.terms.totalPayment - e1 ≤ 0
        · simp only [h3, if_true]
          by_cases h4 : c.terms.totalPayment - e2 ≤ 0
          · simp [h4]
          · simp only [h4, if_false]
            have hp2 : (0 : ℚ) < ((c.terms.totalPayment - e2 : ℤ) : ℚ) := by
              exact_mod_cast lt_of_not_le h4
            have : (0 : ℚ) ≤
                ((c.terms.totalPayment - e2 : ℤ) : ℚ) / ((max 1 c.totalUnitsNeeded : ℤ) : ℚ) *
                  (((c.terms.totalPayment - e2 : ℤ) : ℚ) / ((max 1 c.terms.totalPayment : ℤ) : ℚ)) *
                  min 1 ((c.terms.deadline - now) / 86400) * 100 := by
              have ha : (0 : ℚ) ≤ ((c.terms.totalPayment - e2 : ℤ) : ℚ) /
                  ((max 1 c.totalUnitsNeeded : ℤ) : ℚ) := div_nonneg hp2.le hU.le
              have hb : (0 : ℚ) ≤ ((c.terms.totalPayment - e2 : ℤ) : ℚ) /
                  ((max 1 c.terms.totalPayment : ℤ) : ℚ) := div_nonneg hp2.le hP.le
              have := mul_nonneg (mul_nonneg (mul_nonneg ha hb) hT) (by norm_num : (0:ℚ) ≤ 100)
              linarith
            linarith
        · have h4 : ¬ c.terms.totalPayment - e2 ≤ 0 := by omega
          simp only [h3, h4, if_false]
          have hp1 : (0 : ℚ) < ((c.terms.totalPayment - e1 : ℤ) : ℚ) := by
            exact_mod_cast lt_of_not_le h3
          have hple : ((c.terms.totalPayment - e1 : ℤ) : ℚ) ≤
              ((c.terms.totalPayment - e2 : ℤ) : ℚ) := by exact_mod_cast hprofit
          have ha : ((c.terms.totalPayment - e1 : ℤ) : ℚ) / ((max 1 c.totalUnitsNeeded : ℤ) : ℚ) ≤
              ((c.terms.totalPayment - e2 : ℤ) : ℚ) / ((max 1 c.totalUnitsNeeded : ℤ) : ℚ) :=
            div_le_div_of_nonneg_right hple hU.le
          have hb : ((c.terms.totalPayment - e1 : ℤ) : ℚ) / ((max 1 c.terms.totalPayment : ℤ) : ℚ) ≤
              ((c.terms.totalPayment - e2 : ℤ) : ℚ) / ((max 1 c.terms.totalPayment : ℤ) : ℚ) :=
            div_le_div_of_nonneg_right hple hP.le
          have ha0 : (0 : ℚ) ≤ ((c.terms.totalPayment - e1 : ℤ) : ℚ) /
              ((max 1 c.totalUnitsNeeded : ℤ) : ℚ) := div_nonneg hp1.le hU.le
          have hb0 : (0 : ℚ) ≤ ((c.terms.totalPayment - e1 : ℤ) : ℚ) /
              ((max 1 c.terms.totalPayment : ℤ) : ℚ) :=
            div_nonneg hp1.le hP.le
          have hmul : ((c.terms.totalPayment - e1 : ℤ) : ℚ) / ((max 1 c.totalUnitsNeeded : ℤ) : ℚ) *
                (((c.terms.totalPayment - e1 : ℤ) : ℚ) / ((max 1 c.terms.totalPayment : ℤ) : ℚ)) ≤
              ((c.terms.totalPayment - e2 : ℤ) : ℚ) / ((max 1 c.totalUnitsNeeded : ℤ) : ℚ) *
                (((c.terms.totalPayment - e2 : ℤ) : ℚ) / ((max 1 c.terms.totalPayment : ℤ) : ℚ)) := by
            apply mul_le_mul ha hb hb0 (le_trans ha0 ha)
          have := mul_le_mul_of_nonneg_right
            (mul_le_mul_of_nonneg_right hmul hT) (by norm_num : (0:ℚ) ≤ 100)
          exact this
  · intro h
    simp [Contract.profitabilityScore, h]
  · intro h1 h2
    simp [Contract.profitabilityScore, h1, h2]

theorem profitability_score_monotone_value :
    ((0 : ℚ) ≤ scenarioBContract.terms.deadline ∧ (1500 : ℤ) ≤ 2000) ∧
      scenarioBContract.profitabilityScore 0 100 2000 ≤
        scenarioBContract.profitabilityScore 0 100 1500 :=
  ⟨⟨by norm_num [scenarioBContract], by norm_num⟩,
    (profitability_score_monotone scenarioBContract 0 100 2000 1500).1
      (by norm_num [scenarioBContract]) (by norm_num)⟩

/-- Helper: adopting the head of the filtered active-contract list is the
same as taking the first contract satisfying the active predicate. -/
theorem updateContracts_eq_find (now : ℚ) (contracts : List Contract) :
    updateContracts now contracts = contracts.find? (isActiveContract now) := by
  induction contracts with
  | nil => rfl
  | cons c t ih =>
    by_cases h : isActiveContract now c
    · simp [updateContracts, List.filter_cons, h, List.find?_cons]
    · simp only [Bool.not_eq_true] at h
      simp only [updateContracts, List.filter_cons, h, List.find?_cons,
        Bool.false_eq_true, if_false, cond_false]
      exact ih

/-- C5: situation assessment routes an empty fleet to ERROR_RECOVERY;
otherwise the first contract with `accepted ∧ ¬fulfilled ∧ ¬expired` is
adopted and the next state is COMPLETE_CONTRACT exactly when each of its
deliveries has `units_fulfilled ≥ units_required` (else EXECUTE_CONTRACT);
with no qualifying contract the current contract is cleared and the next
state is NEGOTIATE_CONTRACT. -/
theorem assess_situation_classification (ships : List Ship)
    (contracts : List Contract) (now : ℚ) :
    (ships = [] → (assessSituation ships contracts now).2 = AgentState.ERROR_RECOVERY) ∧
    (ships ≠ [] →
      (∀ c, contracts.find? (isActiveContract now) = some c →
        assessSituation ships contracts now =
          (some c,
            if ∀ d ∈ c.terms.deliveries, d.unitsFulfilled ≥ d.unitsRequired
              then AgentState.COMPLETE_CONTRACT else AgentState.EXECUTE_CONTRACT)) ∧
      (contracts.find? (isActiveContract now) = none →
        assessSituation ships contracts now = (none, AgentState.NEGOTIATE_CONTRACT))) := by
  have hupd := updateContracts_eq_find now contracts
  constructor
  · intro h
    subst h
    simp [assessSituation, determineNextAction]
  · intro h
    have hne : ships.isEmpty = false := by
      cases ships with
      | nil => exact absurd rfl h
      | cons s t => rfl
    constructor
    · intro c hc
      have hall : c.allDeliveriesCompleted =
          decide (∀ d ∈ c.terms.deliveries, d.unitsFulfilled ≥ d.unitsRequired) := by
        rw [Bool.eq_iff_iff]
        simp [Contract.allDeliveriesCompleted, ContractDelivery.isCompleted,
          List.all_eq_true]
      simp only [assessSituation, hupd, hc, determineNextAction, hne,
        Bool.false_eq_true, if_false, hall]
      by_cases hd : ∀ d ∈ c.terms.deliveries, d.unitsFulfilled ≥ d.unitsRequired <;>
        simp [hd]
    · intro hc
      simp [assessSituation, hupd, hc, determineNextAction, hne]

theorem assess_situation_classification_value :
    (assessSituation [] [] 0).2 = AgentState.ERROR_RECOVERY :=
  (assess_situation_classification [] [] 0).1 rfl

/-- Helper: with agent data present, the per-contract filter guard reduces
to the two conditions that can actually fire (total units within total
capacity, estimated cost within `credits - safety_reserve`); the ship-size
guard is subsumed by the capacity guard. -/
theorem contractPassesFilter_eq (ships : List Ship) (a : AgentData)
    (config : StrategyConfig) (c : Contract) :
    contractPassesFilter ships (some a) config c =
      (decide (c.totalUnitsRequired ≤ totalCargoCapacity ships) &&
       decide (c.totalUnitsRequired * 100 + Int.tdiv c.terms.totalPayment 10 ≤
         a.credits - config.safetyCreditReserve)) := by
  unfold contractPassesFilter hasSufficientCredits estimateContractCost
  by_cases h1 : c.totalUnitsRequired > totalCargoCapacity ships
  · have h1' : ¬ c.totalUnitsRequired ≤ totalCargoCapacity ships := not_le.mpr h1
    simp [h1, h1']
  · have h1' : c.totalUnitsRequired ≤ totalCargoCapacity ships := not_lt.mp h1
    by_cases h2 : a.credits - config.safetyCreditReserve ≥
        c.totalUnitsRequired * 100 + Int.tdiv c.terms.totalPayment 10
    · simp [h1, h1', h2, ge_iff_le]
    · simp [h1, h1', h2, ge_iff_le]

/-- C3: with a non-empty fleet and agent data present, the capability filter
retains exactly the contracts whose total required units fit the total fleet
capacity and whose estimated cost (`units*100 + payment/10`) fits within
`credits - safety_reserve`; in particular a contract whose largest delivery
exceeds the largest single ship but which meets those two conditions is
kept. -/
theorem filter_contracts_characterization (ships : List Ship)
    (agentData : Option AgentData) (config : StrategyConfig)
    (contracts : List Contract) (a : AgentData)
    (hships : ships ≠ []) (ha : agentData = some a) :
    (filterContractsByCapabilities ships agentData config contracts =
      contracts.filter (fun c =>
        decide (c.totalUnitsRequired ≤ totalCargoCapacity ships) &&
        decide (c.totalUnitsRequired * 100 + Int.tdiv c.terms.totalPayment 10 ≤
          a.credits - config.safetyCreditReserve))) ∧
    (∀ c ∈ contracts, c.maxDeliverySize > largestShipCapacity ships →
      c.totalUnitsRequired ≤ totalCargoCapacity ships →
      c.totalUnitsRequired * 100 + Int.tdiv c.terms.totalPayment 10 ≤
        a.credits - config.safetyCreditReserve →
      c ∈ filterContractsByCapabilities ships agentData config contracts) := by
  subst ha
  have hne : ships.isEmpty = false := by
    cases ships with
    | nil => exact absurd rfl hships
    | cons s t => rfl
  have hmain : filterContractsByCapabilities ships (some a) config contracts =
      contracts.filter (fun c =>
        decide (c.totalUnitsRequired ≤ totalCargoCapacity ships) &&
        decide (c.totalUnitsRequired * 100 + Int.tdiv c.terms.totalPayment 10 ≤
          a.credits - config.safetyCreditReserve)) := by
    unfold filterContractsByCapabilities
    rw [hne]
    simp only [Bool.false_eq_true, if_false]
    exact List.filter_congr (fun c _ => contractPassesFilter_eq ships a config c)
  refine ⟨hmain, ?_⟩
  intro c hc _ hcap hcost
  rw [hmain]
  simp only [List.mem_filter, Bool.and_eq_true, decide_eq_true_eq]
  exact ⟨hc, hcap, hcost⟩

theorem filter_contracts_characterization_value :
    { contractId := "in-particular", factionSymbol := "COSMIC"
      accepted := false, fulfilled := false, expiration := none
      terms := { deadline := 86400, paymentOnAccepted := 0, paymentOnFulfilled := 0
                 deliveries :=
                   [{ tradeSymbol := "A", destinationSymbol := "D1"
                      unitsRequired := 35, unitsFulfilled := 0 },
                    { tradeSymbol := "B", destinationSymbol := "D2"
                      unitsRequired := 25, unitsFulfilled := 0 }] } } ∈
      filterContractsByCapabilities
        [{ symbol := "S1", navWaypointSymbol := "W1", navStatus := ShipNavStatus.DOCKED
           cargoCapacity := 30, cargoUnits := 0, fuelCurrent := 100, fuelCapacity := 100 },
         { symbol := "S2", navWaypointSymbol := "W1", navStatus := ShipNavStatus.DOCKED
           cargoCapacity := 30, cargoUnits := 0, fuelCurrent := 100, fuelCapacity := 100 }]
        (some { symbol := "AG", headquarters := "HQ", credits := 20000 })
        { safetyCreditReserve := 10000, lastAcquireAttempt := 0, acquireFailed := false }
        [{ contractId := "in-particular", factionSymbol := "COSMIC"
           accepted := false, fulfilled := false, expiration := none
           terms := { deadline := 86400, paymentOnAccepted := 0, paymentOnFulfilled := 0
                      deliveries :=
                        [{ tradeSymbol := "A", destinationSymbol := "D1"
                           unitsRequired := 35, unitsFulfilled := 0 },
                         { tradeSymbol := "B", destinationSymbol := "D2"
                           unitsRequired := 25, unitsFulfilled := 0 }] } }] :=
  (filter_contracts_characterization _ _ _ _ _ (by simp) rfl).2 _
    (List.mem_singleton.mpr rfl)
    (by norm_num [Contract.maxDeliverySize, largestShipCapacity])
    (by norm_num [Contract.totalUnitsRequired, totalCargoCapacity])
    (by norm_num [Contract.totalUnitsRequired, ContractTerms.totalPayment])

/-- C4 (counterexample to the claim as stated): with one capacity-rejected
contract among nine credit-rejected ones (so capacity/ship-size causes do
NOT dominate), no contract surviving the filter, ample credits and no
cooldown, the negotiator still returns ACQUIRE_RESOURCES — the code tests
for the existence of a capacity/ship-size cause, not for its dominance. -/
theorem analyze_filtering_dominance_counterexample :
    analyzeFilteringReasons smallFleet (some richAgent) freshConfig 0
        mostlyCreditContracts = AgentState.ACQUIRE_RESOURCES ∧
    ¬ capacitySizeIssuesDominate smallFleet (some richAgent) freshConfig
        mostlyCreditContracts ∧
    filterContractsByCapabilities smallFleet (some richAgent) freshConfig
        mostlyCreditContracts = [] := by
  refine ⟨by decide, ?_, by decide⟩
  unfold capacitySizeIssuesDominate
  decide

/-- C4 as amended: whenever no contract survives the capability filter, the
negotiator returns ACQUIRE_RESOURCES if and only if at least one fetched
contract has a capacity or ship-size rejection cause (not necessarily a
dominating one), agent data is present with credits above the 50000
fleet-expansion threshold, and either no acquire failure is recorded or the
one-hour cooldown has elapsed; in every other case it returns
NEGOTIATE_CONTRACT. -/
theorem analyze_filtering_amended (ships : List Ship) (agentData : Option AgentData)
    (config : StrategyConfig) (now : ℚ) (contracts : List Contract)
    (hfilter : filterContractsByCapabilities ships agentData config contracts = []) :
    (analyzeFilteringReasons ships agentData config now contracts =
        AgentState.ACQUIRE_RESOURCES ↔
      ((∃ c ∈ contracts, c.totalUnitsRequired > totalCargoCapacity ships ∨
          (c.maxDeliverySize > largestShipCapacity ships ∧
            c.totalUnitsRequired > totalCargoCapacity ships)) ∧
       (∃ a, agentData = some a ∧ a.credits > 50000) ∧
       (config.acquireFailed = false ∨ now - config.lastAcquireAttempt > 3600))) ∧
    (analyzeFilteringReasons ships agentData config now contracts =
        AgentState.ACQUIRE_RESOURCES ∨
     analyzeFilteringReasons ships agentData config now contracts =
        AgentState.NEGOTIATE_CONTRACT) := by
  clear hfilter
  have hissue : (0 < contracts.countP
        (fun c => decide (c.totalUnitsRequired > totalCargoCapacity ships)) ∨
      0 < contracts.countP (fun c =>
        decide (c.maxDeliverySize > largestShipCapacity ships ∧
          c.totalUnitsRequired > totalCargoCapacity ships))) ↔
      (∃ c ∈ contracts, c.totalUnitsRequired > totalCargoCapacity ships ∨
        (c.maxDeliverySize > largestShipCapacity ships ∧
          c.totalUnitsRequired > totalCargoCapacity ships)) := by
    rw [List.countP_pos_iff, List.countP_pos_iff]
    simp only [decide_eq_true_eq]
    constructor
    · rintro (⟨c, hc, h⟩ | ⟨c, hc, h⟩)
      · exact ⟨c, hc, Or.inl h⟩
      · exact ⟨c, hc, Or.inr h⟩
    · rintro ⟨c, hc, h | h⟩
      · exact Or.inl ⟨c, hc, h⟩
      · exact Or.inr ⟨c, hc, h⟩
  have hcred : (match agentData with
      | none => false
      | some a => decide (a.credits > 50000)) = true ↔
      (∃ a, agentData = some a ∧ a.credits > 50000) := by
    cases agentData with
    | none => simp
    | some a => simp
  have hcool : (!config.acquireFailed ||
        decide (now - config.lastAcquireAttempt > 3600)) = true ↔
      (config.acquireFailed = false ∨ now - config.lastAcquireAttempt > 3600) := by
    simp [Bool.or_eq_true, Bool.not_eq_true']
  constructor
  · unfold analyzeFilteringReasons
    by_cases hemp : contracts.isEmpty
    · simp only [hemp, if_true]
      constructor
      · intro h
        exact absurd h (by decide)
      · rintro ⟨⟨c, hc, _⟩, _, _⟩
        rw [List.isEmpty_iff] at hemp
        subst hemp
        cases hc
    · simp only [hemp, Bool.false_eq_true, if_false]
      split
      next hcond =>
        obtain ⟨h1, h2, h3⟩ := hcond
        exact ⟨fun _ => ⟨hissue.mp h1, hcred.mp h2, hcool.mp h3⟩, fun _ => rfl⟩
      next hcond =>
        constructor
        · intro h
          exact absurd h (by decide)
        · rintro ⟨h1, h2, h3⟩
          exact absurd ⟨hissue.mpr h1, hcred.mpr h2, hcool.mpr h3⟩ hcond
  · unfold analyzeFilteringReasons
    by_cases hemp : contracts.isEmpty
    · simp [hemp]
    · simp only [hemp, Bool.false_eq_true, if_false]
      split
      · exact Or.inl rfl
      · exact Or.inr rfl

theorem analyze_filtering_amended_value :
    analyzeFilteringReasons smallFleet (some richAgent) freshConfig 0
        mostlyCreditContracts = AgentState.ACQUIRE_RESOURCES ∨
    analyzeFilteringReasons smallFleet (some richAgent) freshConfig 0
        mostlyCreditContracts = AgentState.NEGOTIATE_CONTRACT :=
  (analyze_filtering_amended smallFleet (some richAgent) freshConfig 0
    mostlyCreditContracts (by decide)).2

/-- C1 (code behavior at the failing input): a purchase-ship response that
has a `data` member but lacks the `ship` payload (and the `agent` payload)
leaves the fleet and the credits unchanged, yet the purchase is reported as
SUCCESSFUL (`True`), contradicting the spec's Scenario E which requires it
to be reported as failed. -/
theorem ship_purchase_missing_ship_payload :
    executeShipPurchase [dockedShipAtWp1] 5000 "X1-WP1"
        (some { ship := none, agent := none }) true =
      (true, [dockedShipAtWp1], 5000) := by
  rfl

/-- C8: when shipyard discovery finds no shipyard at all, the acquire state
records the failure timestamp and flag in the strategy config, waits 60
seconds and returns NEGOTIATE_CONTRACT; when shipyards exist but none has a
ship in stock, it records the same markers, waits 300 seconds and returns
NEGOTIATE_CONTRACT. -/
theorem shipyard_discovery_failure_paths (ships : List Ship)
    (agentData : Option AgentData) (config : StrategyConfig)
    (shipyards : List Shipyard) (response : Option PurchaseResponseData)
    (navOk : Bool) (now : ℚ) :
    (shipyards = [] →
      acquireResourcesExecute ships agentData config shipyards response navOk now =
        { next := AgentState.NEGOTIATE_CONTRACT, waitSeconds := 60
          config := { config with lastAcquireAttempt := now, acquireFailed := true }
          ships := ships, credits := creditsOf agentData, noNeedExit := false }) ∧
    (shipyards ≠ [] → (∀ sy ∈ shipyards, sy.ships = []) →
      acquireResourcesExecute ships agentData config shipyards response navOk now =
        { next := AgentState.NEGOTIATE_CONTRACT, waitSeconds := 300
          config := { config with lastAcquireAttempt := now, acquireFailed := true }
          ships := ships, credits := creditsOf agentData, noNeedExit := false }) := by
  obtain ⟨h1, -, -⟩ := analyzeResourceNeeds_always_needs ships
  constructor
  · intro h
    subst h
    unfold acquireResourcesExecute
    simp [h1]
  · intro hne hall
    have hse : shipyards.isEmpty = false := by
      cases shipyards with
      | nil => exact absurd rfl hne
      | cons sy t => rfl
    have hws : (List.filter (fun sy => decide (sy.ships.length > 0)) shipyards) = [] := by
      rw [List.filter_eq_nil_iff]
      intro sy hsy
      simp [hall sy hsy]
    unfold acquireResourcesExecute
    simp only [h1, Bool.not_true, Bool.false_eq_true, if_false, hse, hws,
      List.isEmpty_nil, if_true]

theorem shipyard_discovery_failure_paths_value :
    acquireResourcesExecute [] none
        { safetyCreditReserve := 10000, lastAcquireAttempt := 0, acquireFailed := false }
        [{ waypointSymbol := "X1-WP1", ships := [] }] none false 7 =
      { next := AgentState.NEGOTIATE_CONTRACT, waitSeconds := 300
        config := { safetyCreditReserve := 10000, lastAcquireAttempt := 7
                    acquireFailed := true }
        ships := [], credits := 0, noNeedExit := false } :=
  (shipyard_discovery_failure_paths [] none
      { safetyCreditReserve := 10000, lastAcquireAttempt := 0, acquireFailed := false }
      [{ waypointSymbol := "X1-WP1", ships := [] }] none false 7).2
    (by simp) (by simp)

/-- Helper: a qualifying offering has strictly positive value (its cargo
capacity is positive and `max(price, 1)` is positive). -/
theorem offeringValue_pos {b m : ℤ} {o : ShipOffering}
    (h : offeringQualifies b m o = true) : 0 < offeringValue o := by
  unfold offeringQualifies at h
  simp only [Bool.and_eq_true, Bool.not_eq_true', decide_eq_false_iff_not,
    not_lt, not_le] at h
  obtain ⟨⟨-, hcap⟩, -⟩ := h
  unfold offeringValue
  apply div_pos
  · exact_mod_cast hcap
  · exact_mod_cast lt_of_lt_of_le one_pos (le_max_right o.purchasePrice 1)

/-- Helper: for a positively priced offering the loop's value
`capacity / max(price, 1)` is literally `capacity / price`. -/
theorem offeringValue_eq_div {o : ShipOffering} (h : 1 ≤ o.purchasePrice) :
    offeringValue o = (o.cargoCapacity : ℚ) / (o.purchasePrice : ℚ) := by
  unfold offeringValue
  rw [max_eq_left h]

/-- Helper: full characterization of the best-value fold of
`_purchase_cargo_ship`. Starting from accumulator `(acc, v)`, either no
qualifying entry beats `v` and the accumulator is returned unchanged, or
the result is the first entry attaining the maximum value among the
qualifying entries that beat `v`. -/
theorem selectFold_characterization (b m : ℤ) (l : List (Shipyard × ShipOffering)) :
    ∀ (acc : Option (Shipyard × ShipOffering)) (v : ℚ),
      (l.foldl (selectStep b m) (acc, v) = (acc, v) ∧
        ∀ e ∈ l, offeringQualifies b m e.2 = true → offeringValue e.2 ≤ v) ∨
      (∃ l₁ e l₂, l = l₁ ++ e :: l₂ ∧ offeringQualifies b m e.2 = true ∧
        v < offeringValue e.2 ∧
        l.foldl (selectStep b m) (acc, v) = (some e, offeringValue e.2) ∧
        (∀ y ∈ l₁, offeringQualifies b m y.2 = true →
          offeringValue y.2 < offeringValue e.2) ∧
        (∀ y ∈ l, offeringQualifies b m y.2 = true →
          offeringValue y.2 ≤ offeringValue e.2)) := by
  induction l with
  | nil =>
    intro acc v
    left
    exact ⟨rfl, by simp⟩
  | cons x t ih =>
    intro acc v
    by_cases hq : offeringQualifies b m x.2 = true
    · by_cases hv : offeringValue x.2 > v
      · have hstep : (x :: t).foldl (selectStep b m) (acc, v) =
            t.foldl (selectStep b m) (some x, offeringValue x.2) := by
          simp [List.foldl_cons, selectStep, hq, hv]
        rcases ih (some x) (offeringValue x.2) with ⟨heq, hle⟩ |
          ⟨l₁, e, l₂, hsplit, hqe, hve, hres, hlt₁, hle₂⟩
        · right
          refine ⟨[], x, t, by simp, hq, hv, ?_, by simp, ?_⟩
          · rw [hstep, heq]
          · intro y hy hyq
            rcases List.mem_cons.mp hy with rfl | hyt
            · exact le_refl _
            · exact hle y hyt hyq
        · right
          refine ⟨x :: l₁, e, l₂, by simp [hsplit], hqe, lt_trans hv hve, ?_, ?_, ?_⟩
          · rw [hstep, hres]
          · intro y hy hyq
            rcases List.mem_cons.mp hy with rfl | hy₁
            · exact hve
            · exact hlt₁ y hy₁ hyq
          · intro y hy hyq
            rcases List.mem_cons.mp hy with rfl | hyt
            · exact le_of_lt hve
            · exact hle₂ y hyt hyq
      · have hstep : (x :: t).foldl (selectStep b m) (acc, v) =
            t.foldl (selectStep b m) (acc, v) := by
          simp [List.foldl_cons, selectStep, hq, hv]
        have hxle : offeringValue x.2 ≤ v := not_lt.mp hv
        rcases ih acc v with ⟨heq, hle⟩ |
          ⟨l₁, e, l₂, hsplit, hqe, hve, hres, hlt₁, hle₂⟩
        · left
          refine ⟨by rw [hstep]; exact heq, ?_⟩
          intro y hy hyq
          rcases List.mem_cons.mp hy with rfl | hyt
          · exact hxle
          · exact hle y hyt hyq
        · right
          refine ⟨x :: l₁, e, l₂, by simp [hsplit], hqe, hve, ?_, ?_, ?_⟩
          · rw [hstep, hres]
          · intro y hy hyq
            rcases List.mem_cons.mp hy with rfl | hy₁
            · exact lt_of_le_of_lt hxle hve
            · exact hlt₁ y hy₁ hyq
          · intro y hy hyq
            rcases List.mem_cons.mp hy with rfl | hyt
            · exact le_of_lt (lt_of_le_of_lt hxle hve)
            · exact hle₂ y hyt hyq
    · have hstep : (x :: t).foldl (selectStep b m) (acc, v) =
          t.foldl (selectStep b m) (acc, v) := by
        simp [List.foldl_cons, selectStep, hq]
      rcases ih acc v with ⟨heq, hle⟩ |
        ⟨l₁, e, l₂, hsplit, hqe, hve, hres, hlt₁, hle₂⟩
      · left
        refine ⟨by rw [hstep]; exact heq, ?_⟩
        intro y hy hyq
        rcases List.mem_cons.mp hy with rfl | hyt
        · exact absurd hyq hq
        · exact hle y hyt hyq
      · right
        refine ⟨x :: l₁, e, l₂, by simp [hsplit], hqe, hve, ?_, ?_, ?_⟩
        · rw [hstep, hres]
        · intro y hy hyq
          rcases List.mem_cons.mp hy with rfl | hy₁
          · exact absurd hyq hq
          · exact hlt₁ y hy₁ hyq
        · intro y hy hyq
          rcases List.mem_cons.mp hy with rfl | hyt
          · exact absurd hyq hq
          · exact hle₂ y hyt hyq

/-- C6: among all vendor offerings across all discovered shipyards (all
positively priced), the selection returns some offering exactly when one
qualifies (price within `credits - safety_reserve`, positive capacity,
capacity at least the minimum needed); the returned offering qualifies,
maximizes `cargo_capacity / price` among all qualifying offerings, and is
the first-encountered one among equals (every earlier qualifying offering
has a strictly smaller value); when none qualifies the purchase attempt is
reported as failed with fleet and credits untouched. -/
theorem cargo_ship_selection (shipyards : List Shipyard) (a : AgentData)
    (config : StrategyConfig) (minCargoNeeded : ℤ) (ships : List Ship)
    (response : Option PurchaseResponseData) (navOk : Bool)
    (hprice : ∀ e ∈ shipyardOfferings shipyards, 1 ≤ e.2.purchasePrice) :
    (purchaseCargoShipSelect shipyards (a.credits - config.safetyCreditReserve)
        minCargoNeeded = none ↔
      ∀ e ∈ shipyardOfferings shipyards,
        offeringQualifies (a.credits - config.safetyCreditReserve)
          minCargoNeeded e.2 = false) ∧
    (purchaseCargoShipSelect shipyards (a.credits - config.safetyCreditReserve)
        minCargoNeeded = none →
      purchaseCargoShip ships (some a) config shipyards minCargoNeeded
        response navOk = (false, ships, a.credits)) ∧
    (∀ best, purchaseCargoShipSelect shipyards (a.credits - config.safetyCreditReserve)
        minCargoNeeded = some best →
      best ∈ shipyardOfferings shipyards ∧
      offeringQualifies (a.credits - config.safetyCreditReserve)
        minCargoNeeded best.2 = true ∧
      (∀ e ∈ shipyardOfferings shipyards,
        offeringQualifies (a.credits - config.safetyCreditReserve)
          minCargoNeeded e.2 = true →
        (e.2.cargoCapacity : ℚ) / (e.2.purchasePrice : ℚ) ≤
          (best.2.cargoCapacity : ℚ) / (best.2.purchasePrice : ℚ)) ∧
      (∃ l₁ l₂, shipyardOfferings shipyards = l₁ ++ best :: l₂ ∧
        ∀ e ∈ l₁, offeringQualifies (a.credits - config.safetyCreditReserve)
            minCargoNeeded e.2 = true →
          (e.2.cargoCapacity : ℚ) / (e.2.purchasePrice : ℚ) <
            (best.2.cargoCapacity : ℚ) / (best.2.purchasePrice : ℚ))) := by
  rcases selectFold_characterization (a.credits - config.safetyCreditReserve)
      minCargoNeeded (shipyardOfferings shipyards) none 0 with ⟨heq, hle⟩ |
    ⟨l₁, e, l₂, hsplit, hqe, -, hres, hlt₁, hle₂⟩
  · have hnone : purchaseCargoShipSelect shipyards
        (a.credits - config.safetyCreditReserve) minCargoNeeded = none := by
      unfold purchaseCargoShipSelect
      rw [heq]
    have hallfalse : ∀ e ∈ shipyardOfferings shipyards,
        offeringQualifies (a.credits - config.safetyCreditReserve)
          minCargoNeeded e.2 = false := by
      intro e he
      cases hcase : offeringQualifies (a.credits - config.safetyCreditReserve)
          minCargoNeeded e.2
      · rfl
      · exact absurd (hle e he hcase) (not_le.mpr (offeringValue_pos hcase))
    refine ⟨⟨fun _ => hallfalse, fun _ => hnone⟩, fun _ => ?_, fun best hbest => ?_⟩
    · unfold purchaseCargoShip
      simp [hnone]
    · rw [hnone] at hbest
      cases hbest
  · have hmem : e ∈ shipyardOfferings shipyards := by
      rw [hsplit]
      exact List.mem_append_right l₁ (List.mem_cons_self e l₂)
    have hsome : purchaseCargoShipSelect shipyards
        (a.credits - config.safetyCreditReserve) minCargoNeeded = some e := by
      unfold purchaseCargoShipSelect
      rw [hres]
    refine ⟨⟨fun h => ?_, fun hall => ?_⟩, fun h => ?_, fun best hbest => ?_⟩
    · rw [hsome] at h
      cases h
    · exact absurd hqe (by rw [hall e hmem]; simp)
    · rw [hsome] at h
      cases h
    · rw [hsome] at hbest
      injection hbest with hbe
      subst hbe
      refine ⟨hmem, hqe, ?_, l₁, l₂, hsplit, ?_⟩
      · intro x hx hxq
        have := hle₂ x hx hxq
        rwa [offeringValue_eq_div (hprice x hx),
          offeringValue_eq_div (hprice _ hmem)] at this
      · intro x hx hxq
        have hxmem : x ∈ shipyardOfferings shipyards := by
          rw [hsplit]
          exact List.mem_append_left _ hx
        have := hlt₁ x hx hxq
        rwa [offeringValue_eq_div (hprice x hxmem),
          offeringValue_eq_div (hprice _ hmem)] at this

theorem cargo_ship_selection_value :
    purchaseCargoShipSelect
        [{ waypointSymbol := "X1-WP1"
           ships := [{ shipType := "SHIP_LIGHT_HAULER", purchasePrice := 500000
                       cargoCapacity := 40 }] }]
        ((200000 : ℤ) - 10000) 20 = none :=
  (cargo_ship_selection
      [{ waypointSymbol := "X1-WP1"
         ships := [{ shipType := "SHIP_LIGHT_HAULER", purchasePrice := 500000
                     cargoCapacity := 40 }] }]
      { symbol := "AG", headquarters := "HQ", credits := 200000 }
      { safetyCreditReserve := 10000, lastAcquireAttempt := 0, acquireFailed := false }
      20 [] none false (by decide)).1.mpr (by decide)

end SpaceTrader
